import Mathlib

/-!
Shallow embedding of the anxiety-word corpus analysis program
(`analysis.py`): tokenizer, lexicon matcher, corpus analyzer,
chi-square significance tester and the baseline-coordinating `main`.
Real arithmetic is modelled exactly over `ℚ`; Python `None` is `Option.none`;
IEEE `nan`/`inf` values that arise in the statistics are modelled by the
`PFloat` type below.
-/

set_option maxRecDepth 1000000

/-- A Python word character for the regex `\w` as used on the (ASCII) corpus
text: letters, digits, underscore. -/
def wordChar (c : Char) : Bool := c.isAlphanum || c == '_'

/-- Left-to-right scanner behind `re.findall(r'\b\w+\b', text)`: `acc` holds the
(reversed) word-character run currently being read. -/
def tokenizeAux : List Char → List Char → List (List Char)
  | [], acc => if acc = [] then [] else [acc.reverse]
  | c :: cs, acc =>
    if wordChar c then tokenizeAux cs (c :: acc)
    else if acc = [] then tokenizeAux cs [] else acc.reverse :: tokenizeAux cs []

/-- Embedding of `re.findall(r'\b\w+\b', text)`: every maximal run of word characters,
left to right; all other characters are discarded (line 45 of analysis.py). -/
def tokenizeChars (cs : List Char) : List (List Char) := tokenizeAux cs []

/-- Embedding of `re.findall(r'\b\w+\b', all_text.lower())` (line 45 of analysis.py);
`str.lower()` is modelled character-wise, which agrees with it on ASCII text. -/
def tokenize (s : String) : List String :=
  (tokenizeChars (s.toList.map Char.toLower)).map fun cs => String.mk cs

/-- One update step of a `collections.Counter`: increment the count of `k`,
keeping first-insertion order of keys (Python dicts preserve it). -/
def bump (k : String) : List (String × ℕ) → List (String × ℕ)
  | [] => [(k, 1)]
  | (k', n) :: rest => if k' = k then (k', n + 1) :: rest else (k', n) :: bump k rest

/-- Embedding of `collections.Counter(ws)` as its insertion-ordered item list. -/
def counterItems (ws : List String) : List (String × ℕ) :=
  ws.foldl (fun acc w => bump w acc) []

/-- One step of Python's stable descending-by-count sort: an element inserted
later (i.e. earlier in the original list, for the `foldr` below) goes before
entries of equal count. -/
def insertByCount (x : String × ℕ) : List (String × ℕ) → List (String × ℕ)
  | [] => [x]
  | y :: ys => if x.2 ≥ y.2 then x :: y :: ys else y :: insertByCount x ys

/-- Embedding of `Counter.most_common()`, that is
`sorted(items, key=count, reverse=True)`:
stable sort, descending by count, ties in first-insertion order. -/
def mostCommon (l : List (String × ℕ)) : List (String × ℕ) :=
  l.foldr insertByCount []

/-- The fixed anxiety-marker lexicon of analysis.py (lines 114-130),
transcribed verbatim in order. -/
def anxiety_words : List String := [
  "anxiety", "panic", "stress", "fear", "worry", "nervous", "anxious", "overwhelmed",
  "dread", "scared", "terror", "phobia", "obsession", "compulsion", "trembling",
  "shaking", "insomnia", "nausea", "sweating", "breathless", "hyperventilating",
  "palpitations", "therapy", "medication", "psychiatrist", "psychologist", "counseling",
  "depression", "trauma", "disorder", "attack", "agoraphobia", "claustrophobia",
  "social", "ocd", "ptsd", "gad", "overthinking", "catastrophizing", "avoidance",
  "reassurance", "rumination", "trigger", "coping", "mindfulness", "meditation",
  "breathing", "xanax", "zoloft", "prozac", "lexapro", "ssri", "benzodiazepine",
  "klonopin", "valium", "ativan", "buspar", "antidepressant", "symptoms", "diagnosis",
  "recovery", "relapse", "chest", "tight", "dizzy", "lightheaded", "ibs", "stomach",
  "tension", "muscle", "headache", "fatigue", "exhaustion", "tired", "irritable",
  "health", "doctor", "hospital", "er", "emergency", "medicine", "pharmacist",
  "prescription", "dose", "side-effects", "withdrawal", "dependence", "addiction",
  "tolerance", "cbt", "exposure", "relaxation", "grounding", "techniques", "self-care",
  "support", "group", "helpline", "crisis", "mental", "brain", "heart", "racing", "sleep"]

/-- Result dictionary of `analyze_anxiety_words` (lines 145-160). -/
structure AnxietyStats where
  anxiety_counts : List (String × ℕ)
  total_anxiety_words : ℕ
  unique_anxiety_words : ℕ
  percentage_of_all_words : ℚ
  percentage_of_anxiety_list_found : ℚ
deriving Repr, DecidableEq, Inhabited

/-- Embedding of `analyze_anxiety_words(words)` (lines 97-160): scan the token list, count
occurrences of lexicon words (in first-occurrence order), and derive the
percentage statistics with their zero guards. -/
def analyze_anxiety_words (words : List String) : AnxietyStats :=
  let markers := words.filter (fun w => w ∈ anxiety_words)
  let anxiety_counts := counterItems markers
  let total_anxiety_words := markers.length
  let total_words := words.length
  { anxiety_counts := mostCommon anxiety_counts
    total_anxiety_words := total_anxiety_words
    unique_anxiety_words := anxiety_counts.length
    percentage_of_all_words :=
      if 0 < total_words then ((total_anxiety_words : ℚ) / total_words) * 100 else 0
    percentage_of_anxiety_list_found :=
      if anxiety_words = [] then 0
      else ((anxiety_counts.length : ℚ) / anxiety_words.length) * 100 }

/-- An IEEE double as it shows up in the statistics: a finite value (modelled
exactly as a rational), `nan` (from 0/0 inside the engine) or `inf`
(from the `float('inf')` literal at line 225). -/
inductive PFloat where
  | fin : ℚ → PFloat
  | nan : PFloat
  | inf : PFloat
deriving Repr, DecidableEq, Inhabited

/-- Python `x < q` for a float `x` and a finite threshold `q`:
comparisons against `nan` are false, and `inf < q` is false. -/
def PFloat.ltQ : PFloat → ℚ → Bool
  | .fin x, q => x < q
  | .nan, _ => false
  | .inf, _ => false

/-- Modelled from the scipy dependency: `scipy.stats.chi2_contingency` on the
2x2 table `[[a, b], [c, d]]` with its defaults (Pearson statistic, Yates
continuity correction, dof = 1 for a 2x2 table). `sf` stands for the
chi-square(1) survival function scipy applies to the statistic to obtain the
p-value. Checks mirror scipy's source: a negative entry raises `ValueError`;
a zero grand total makes the margin-derived expected table 0/0 = NaN, which
passes the zero-expected check and propagates NaN into the statistic and
p-value (no exception); a genuine zero in the expected table raises
`ValueError`. The Yates adjustment moves each observed cell toward its
expected value by `min(0.5, |expected - observed|)`, so each Pearson term is
`(max(|expected - observed| - 0.5, 0))^2 / expected`. -/
def chi2stat (a b c d : ℚ) : ℚ :=
  let N := a + b + c + d
  let ea := (a + b) * (a + c) / N
  let eb := (a + b) * (b + d) / N
  let ec := (c + d) * (a + c) / N
  let ed := (c + d) * (b + d) / N
  let term := fun (o e : ℚ) => (max (|e - o| - 1 / 2) 0) ^ 2 / e
  term a ea + term b eb + term c ec + term d ed

/-- The checks and outcomes of the engine call, continuing the doc comment
above: `chi2stat` is the corrected statistic of the non-degenerate case. -/
def chi2_contingency (sf : ℚ → ℚ) (a b c d : ℚ) : Except Unit (PFloat × PFloat) :=
  if a < 0 ∨ b < 0 ∨ c < 0 ∨ d < 0 then .error ()
  else if a + b + c + d = 0 then .ok (.nan, .nan)
  else
    let N := a + b + c + d
    let ea := (a + b) * (a + c) / N
    let eb := (a + b) * (b + d) / N
    let ec := (c + d) * (a + c) / N
    let ed := (c + d) * (b + d) / N
    if ea = 0 ∨ eb = 0 ∨ ec = 0 ∨ ed = 0 then .error ()
    else .ok (.fin (chi2stat a b c d), .fin (sf (chi2stat a b c d)))

/-- Result dictionary of `chi_square_test` (lines 205-248). Python `None`
is `Option.none`; `expected_anxiety_ratio` is populated in every return
path of the source. -/
structure ChiSquareResult where
  chi2_statistic : Option PFloat
  chi2_p_value : Option PFloat
  chi2_significant : Option Bool
  expected_anxiety_ratio : ℚ
  expected_anxiety_count : Option PFloat
  observed_to_expected_ratio : Option PFloat
deriving Repr, DecidableEq, Inhabited

/-- A Python exception escaping a function of the program. -/
inductive PyExc where
  | unboundLocalError
deriving Repr, DecidableEq

deriving instance DecidableEq for Except

/-- The `except ImportError` handler of `chi_square_test` (lines 227-237),
with the local-variable environment made explicit: `total_words` is the
value of the local of that name at the time the handler runs, `none` when it
was never assigned. Line 235 evaluates `total_words * expected_ratio`, which
raises `UnboundLocalError` when the variable is unbound. -/
def importErrorHandler (total_words : Option ℕ) (expected_ratio : ℚ) :
    Except PyExc ChiSquareResult :=
  match total_words with
  | none => .error .unboundLocalError
  | some t =>
      .ok { chi2_statistic := none
            chi2_p_value := none
            chi2_significant := none
            expected_anxiety_ratio := expected_ratio
            expected_anxiety_count := some (.fin ((t : ℚ) * expected_ratio))
            observed_to_expected_ratio := none }

/-- Embedding of `chi_square_test(words, anxiety_stats, expected_ratio)`
(lines 162-248),
abstracted over `words` by its length and over `anxiety_stats` by its
`total_anxiety_words` entry (the only parts the source reads).
`scipyAvailable` models whether `from scipy.stats import chi2_contingency`
(line 180) succeeds; when it fails, it fails before line 183 assigns
`total_words`, so the `ImportError` handler runs with that local unbound.
When the engine raises (`ValueError` from a degenerate table), the generic
`except Exception` handler (lines 238-248) returns the all-`None` dictionary
with only `expected_anxiety_ratio` populated. -/
def chi_square_test (scipyAvailable : Bool) (sf : ℚ → ℚ)
    (total_words anxiety_count : ℕ) (expected_ratio : ℚ) :
    Except PyExc ChiSquareResult :=
  if scipyAvailable then
    let expected0 : ℚ := (total_words : ℚ) * expected_ratio
    let expected1 : ℚ := (total_words : ℚ) * (1 - expected_ratio)
    let non_anxiety : ℚ := (total_words : ℚ) - (anxiety_count : ℚ)
    match chi2_contingency sf (anxiety_count : ℚ) non_anxiety expected0 expected1 with
    | .ok (chi2, p) =>
        .ok { chi2_statistic := some chi2
              chi2_p_value := some p
              chi2_significant := some (p.ltQ (1 / 20))
              expected_anxiety_ratio := expected_ratio
              expected_anxiety_count := some (.fin expected0)
              observed_to_expected_ratio :=
                some (if 0 < expected0 then .fin ((anxiety_count : ℚ) / expected0) else .inf) }
    | .error _ =>
        .ok { chi2_statistic := none
              chi2_p_value := none
              chi2_significant := none
              expected_anxiety_ratio := expected_ratio
              expected_anxiety_count := none
              observed_to_expected_ratio := none }
  else
    importErrorHandler none expected_ratio

/-- One Reddit post record as read from the JSON file (lines 33-39):
a dictionary whose `title`, `body` and `all_comment_text` keys may each be
absent (`post.get(key, "")` supplies `""` then). -/
structure Post where
  title : Option String
  body : Option String
  all_comment_text : Option String
deriving Repr, DecidableEq, Inhabited

/-- What the corpus file `<prefix>_posts.json` holds: absent
(`FileNotFoundError`), present but not valid JSON (`json.JSONDecodeError`),
or a parsed list of post records. -/
inductive FileData where
  | missing
  | invalid
  | posts (l : List Post)
deriving Repr, DecidableEq, Inhabited

/-- Lines 32-39: concatenate title, body and comment text of every post,
each prefixed by a space, into one corpus string. -/
def postsText (l : List Post) : String :=
  l.foldl
    (fun acc p =>
      acc ++ " " ++ p.title.getD "" ++ " " ++ p.body.getD "" ++ " " ++ p.all_comment_text.getD "")
    ""

/-- The per-corpus entry of the `results` dictionary (lines 61-79).
`chi` and `baseline_source` are the keys merged in by lines 78-79, present
exactly when a baseline ratio was supplied. -/
structure CorpusRecord where
  total_words : ℕ
  unique_words : ℕ
  anxiety_word_count : ℕ
  unique_anxiety_words : ℕ
  anxiety_word_percentage : ℚ
  anxiety_word_coverage : ℚ
  word_frequency : List (String × ℕ)
  anxiety_word_frequency : List (String × ℕ)
  anxiety_word_ratio : ℚ
  chi : Option ChiSquareResult
  baseline_source : Option String
deriving Repr, DecidableEq, Inhabited

/-- Lines 48-71: the statistics part of the `results[file_prefix]` record
built from the token list (no chi-square fields yet). -/
def buildRecord (words : List String) : CorpusRecord :=
  let word_counts := counterItems words
  let sorted_words := (mostCommon word_counts).filter fun wc => 1 < wc.2
  let anxiety_stats := analyze_anxiety_words words
  { total_words := words.length
    unique_words := word_counts.length
    anxiety_word_count := anxiety_stats.total_anxiety_words
    unique_anxiety_words := anxiety_stats.unique_anxiety_words
    anxiety_word_percentage := anxiety_stats.percentage_of_all_words
    anxiety_word_coverage := anxiety_stats.percentage_of_anxiety_list_found
    word_frequency := sorted_words
    anxiety_word_frequency := anxiety_stats.anxiety_counts
    anxiety_word_ratio := anxiety_stats.percentage_of_all_words / 100
    chi := none
    baseline_source := none }

/-- Python dict assignment `d[k] = v`: update in place if the key exists
(keeping its position), else append. -/
def setEntry (k : String) (v : CorpusRecord) :
    List (String × CorpusRecord) → List (String × CorpusRecord)
  | [] => [(k, v)]
  | (k', v') :: rest => if k' = k then (k, v) :: rest else (k', v') :: setEntry k v rest

/-- Python dict lookup `d.get(k)`. -/
def getEntry (k : String) (l : List (String × CorpusRecord)) : Option CorpusRecord :=
  (l.find? fun e => e.1 = k).map fun e => e.2

/-- Embedding of `analyze_posts(file_prefix, results, baseline_ratio)`
(lines 10-95).
`fd` is the content of `<file_prefix>_posts.json`; the returned pair is
(return value, `results` dictionary after the call). A missing or malformed
file is caught (lines 84-91) before the line-61 assignment, so `results` is
unchanged; a valid file first stores the statistics record (line 61) and
then, when `baseline_ratio` is not `None`, merges in the chi-square result
(line 78) and the baseline-source tag (line 79, `'askreddit' if
baseline_ratio else 'default'`, i.e. by float truthiness of the ratio).
When `chi_square_test` raises (scipy unavailable, §C3), the generic
`except Exception` handler at line 92 returns `False` with the line-61
record already stored. -/
def analyze_posts (scipyAvailable : Bool) (sf : ℚ → ℚ) (fd : FileData)
    (results : List (String × CorpusRecord)) (filePre : String)
    (baseline_ratio : Option ℚ) : Bool × List (String × CorpusRecord) :=
  match fd with
  | .missing => (false, results)
  | .invalid => (false, results)
  | .posts l =>
    let words := tokenize (postsText l)
    let base := buildRecord words
    let results1 := setEntry filePre base results
    match baseline_ratio with
    | none => (true, results1)
    | some r =>
      match chi_square_test scipyAvailable sf words.length base.anxiety_word_count r with
      | .error _ => (false, results1)
      | .ok c =>
        let merged := { base with
          chi := some c
          baseline_source := some (if r ≠ 0 then "askreddit" else "default") }
        (true, setEntry filePre merged results1)

/-- The per-file loop of `main` (lines 369-374): analyze each remaining
`*_posts.json` file against the established baseline ratio, threading the
`results` dictionary through. -/
def processFiles (scipyAvailable : Bool) (sf : ℚ → ℚ) (baseline_ratio : ℚ)
    (files : List (String × FileData)) (results : List (String × CorpusRecord)) :
    List (String × CorpusRecord) :=
  files.foldl
    (fun res pf => (analyze_posts scipyAvailable sf pf.2 res pf.1 (some baseline_ratio)).2)
    results

/-- Embedding of `main()` (lines 330-377), up to the `results` mapping it hands to the
CSV writer. `ask` is the content of `askreddit_posts.json` (`.missing` iff
`os.path.exists` is false); `others` are the remaining `*_posts.json` files
in directory-listing order, as (name, content) pairs; line 361 excludes
the askreddit file from that list. When the askreddit file exists it is
analyzed first with no baseline; line 351 then reads
`results['askreddit']['anxiety_word_ratio']`, a `KeyError` crash (modelled
as `none`) if that analysis failed. Otherwise the default baseline ratio
0.005 is used. -/
def mainResults (scipyAvailable : Bool) (sf : ℚ → ℚ) (ask : FileData)
    (others : List (String × FileData)) : Option (List (String × CorpusRecord)) :=
  let json_files := others.filter fun x => x.1 ≠ "askreddit"
  match ask with
  | .missing =>
      some (processFiles scipyAvailable sf (5 / 1000) json_files [])
  | fd =>
      let results0 := (analyze_posts scipyAvailable sf fd [] "askreddit" none).2
      match getEntry "askreddit" results0 with
      | none => none
      | some recA =>
          some (processFiles scipyAvailable sf recA.anxiety_word_ratio json_files results0)

/-- Modelled from the spec: a standard chi-square goodness-of-fit statistic
over paired observed/expected category vectors, the sum over categories of
(observed - expected)^2 / expected (no continuity correction, no
margin-derived expected table). Stated for comparison with the engine call
the source actually makes. -/
def chi2_gof_spec (observed expected : List ℚ) : ℚ :=
  (observed.zip expected).foldl (fun acc oe => acc + (oe.1 - oe.2) ^ 2 / oe.2) 0

/-- A post record with every absent field replaced by the empty string, the
default that `post.get(key, "")` supplies. -/
def fillEmptyFields (p : Post) : Post :=
  { title := some (p.title.getD "")
    body := some (p.body.getD "")
    all_comment_text := some (p.all_comment_text.getD "") }

/-- Witness for the designated-baseline theorem on a concrete two-corpus
run: an empty askreddit corpus plus one other corpus. -/
def res6 : List (String × CorpusRecord) :=
  (mainResults true (fun q => q) (.posts []) [("cats", .posts [])]).getD []

/-- The baseline corpus's own record in that run. -/
def rec6 : CorpusRecord := (getEntry "askreddit" res6).getD default

/-- Witness run for the failure-skipping theorem: one missing file, one
malformed file, one readable corpus. -/
def res7 : List (String × CorpusRecord) :=
  (mainResults true (fun q => q) .missing
    [("a", .missing), ("b", .invalid), ("c", .posts [])]).getD []

/-!
Helper lemmas about the tokenizer scanner, the dictionary operations, the
significance tester and the per-corpus analyzer, shared by the claim
theorems below.
-/

theorem tokenizeAux_flatten (cs : List Char) :
    ∀ acc : List Char, (tokenizeAux cs acc).flatten = acc.reverse ++ cs.filter wordChar := by
  induction cs with
  | nil =>
    intro acc
    by_cases h : acc = []
    · simp [tokenizeAux, h]
    · simp [tokenizeAux, h]
  | cons c cs ih =>
    intro acc
    by_cases hw : wordChar c
    · simp only [tokenizeAux, hw, if_true, ih, List.reverse_cons, List.filter_cons, hw,
        List.append_assoc, List.cons_append, List.nil_append]
    · by_cases h : acc = []
      · simp [tokenizeAux, hw, h, ih, List.filter_cons]
      · simp [tokenizeAux, hw, h, ih, List.filter_cons]

theorem tokenizeAux_mem (cs : List Char) :
    ∀ acc t, (∀ c ∈ acc, wordChar c) → t ∈ tokenizeAux cs acc →
      t ≠ [] ∧ ∀ c ∈ t, wordChar c := by
  induction cs with
  | nil =>
    intro acc t hacc ht
    by_cases h : acc = []
    · simp [tokenizeAux, h] at ht
    · simp only [tokenizeAux, h, if_false, List.mem_singleton] at ht
      subst ht
      refine ⟨by simpa using h, ?_⟩
      intro c hc
      exact hacc c (List.mem_reverse.mp hc)
  | cons c cs ih =>
    intro acc t hacc ht
    by_cases hw : wordChar c
    · simp only [tokenizeAux, hw, if_true] at ht
      refine ih (c :: acc) t ?_ ht
      intro x hx
      rcases List.mem_cons.mp hx with rfl | hx'
      · exact hw
      · exact hacc x hx'
    · by_cases h : acc = []
      · simp only [tokenizeAux, hw, h, if_false, if_true] at ht
        exact ih [] t (by simp) ht
      · simp only [tokenizeAux, hw, h, if_false, List.mem_cons] at ht
        cases ht with
        | head =>
          refine ⟨by simpa using h, ?_⟩
          intro x hx
          exact hacc x (List.mem_reverse.mp hx)
        | tail _ ht' => exact ih [] t (by simp) ht'

theorem getEntry_setEntry_self (k : String) (v : CorpusRecord)
    (l : List (String × CorpusRecord)) : getEntry k (setEntry k v l) = some v := by
  induction l with
  | nil => simp [getEntry, setEntry]
  | cons hd tl ih =>
    obtain ⟨k', v'⟩ := hd
    by_cases h : k' = k
    · simp [getEntry, setEntry, h]
    · simpa [getEntry, setEntry, h] using ih

theorem getEntry_setEntry_ne (k k' : String) (v : CorpusRecord)
    (l : List (String × CorpusRecord)) (h : k' ≠ k) :
    getEntry k' (setEntry k v l) = getEntry k' l := by
  induction l with
  | nil => simp [getEntry, setEntry, Ne.symm h]
  | cons hd tl ih =>
    obtain ⟨k0, v0⟩ := hd
    by_cases h0 : k0 = k
    · subst h0
      simp [getEntry, setEntry, Ne.symm h, h]
    · by_cases h1 : k0 = k'
      · simp [getEntry, setEntry, h0, h1, h]
      · simpa [getEntry, setEntry, h0, h1, h] using ih

theorem setEntry_setEntry (k : String) (v w : CorpusRecord)
    (l : List (String × CorpusRecord)) :
    setEntry k v (setEntry k w l) = setEntry k v l := by
  induction l with
  | nil => simp [setEntry]
  | cons hd tl ih =>
    obtain ⟨k0, v0⟩ := hd
    by_cases h0 : k0 = k
    · simp [setEntry, h0]
    · simp [setEntry, h0, ih]

theorem chi_square_test_true_ok (sf : ℚ → ℚ) (t a : ℕ) (r : ℚ) :
    ∃ c, chi_square_test true sf t a r = .ok c ∧ c.expected_anxiety_ratio = r := by
  simp only [chi_square_test, if_true]
  rcases h : chi2_contingency sf (a : ℚ) ((t : ℚ) - (a : ℚ)) ((t : ℚ) * r) ((t : ℚ) * (1 - r))
    with e | ⟨chi2, p⟩
  · exact ⟨_, rfl, rfl⟩
  · exact ⟨_, rfl, rfl⟩

theorem analyze_posts_true_posts (sf : ℚ → ℚ) (l : List Post)
    (res : List (String × CorpusRecord)) (q : String) (b : ℚ) :
    ∃ rec c, analyze_posts true sf (.posts l) res q (some b) = (true, setEntry q rec res) ∧
      rec.chi = some c ∧ c.expected_anxiety_ratio = b := by
  obtain ⟨c, hc, hr⟩ := chi_square_test_true_ok sf (tokenize (postsText l)).length
    (buildRecord (tokenize (postsText l))).anxiety_word_count b
  refine ⟨{ buildRecord (tokenize (postsText l)) with
            chi := some c
            baseline_source := some (if b ≠ 0 then "askreddit" else "default") }, c, ?_, rfl, hr⟩
  simp only [analyze_posts, hc, setEntry_setEntry]

theorem analyze_posts_snd_or (sc : Bool) (sf : ℚ → ℚ) (fd : FileData)
    (res : List (String × CorpusRecord)) (q : String) (b : Option ℚ) :
    (analyze_posts sc sf fd res q b).2 = res ∨
      ∃ rec, (analyze_posts sc sf fd res q b).2 = setEntry q rec res := by
  cases fd with
  | missing => exact Or.inl rfl
  | invalid => exact Or.inl rfl
  | posts l =>
    cases b with
    | none => exact Or.inr ⟨_, rfl⟩
    | some r =>
      rcases h : chi_square_test sc sf (tokenize (postsText l)).length
          (buildRecord (tokenize (postsText l))).anxiety_word_count r with e | c
      · exact Or.inr ⟨buildRecord (tokenize (postsText l)), by simp only [analyze_posts, h]⟩
      · exact Or.inr ⟨{ buildRecord (tokenize (postsText l)) with
            chi := some c
            baseline_source := some (if r ≠ 0 then "askreddit" else "default") },
          by simp only [analyze_posts, h, setEntry_setEntry]⟩

theorem getEntry_processFiles_not_mem (sc : Bool) (sf : ℚ → ℚ) (b : ℚ)
    (files : List (String × FileData)) (init : List (String × CorpusRecord)) (p : String)
    (hp : p ∉ files.map Prod.fst) :
    getEntry p (processFiles sc sf b files init) = getEntry p init := by
  induction files generalizing init with
  | nil => rfl
  | cons hd tl ih =>
    obtain ⟨q, fd⟩ := hd
    simp only [List.map_cons, List.mem_cons, not_or] at hp
    obtain ⟨hpq, hptl⟩ := hp
    show getEntry p (processFiles sc sf b tl (analyze_posts sc sf fd init q (some b)).2) = _
    rw [ih _ hptl]
    rcases analyze_posts_snd_or sc sf fd init q (some b) with h | ⟨rec, h⟩
    · rw [h]
    · rw [h, getEntry_setEntry_ne _ _ _ _ hpq]

theorem getEntry_processFiles_fail (sc : Bool) (sf : ℚ → ℚ) (b : ℚ)
    (files : List (String × FileData)) (init : List (String × CorpusRecord))
    (p : String) (fd : FileData)
    (hmem : (p, fd) ∈ files) (hfd : fd = .missing ∨ fd = .invalid)
    (hnodup : (files.map Prod.fst).Nodup) :
    getEntry p (processFiles sc sf b files init) = getEntry p init := by
  induction files generalizing init with
  | nil => cases hmem
  | cons hd tl ih =>
    obtain ⟨q, g⟩ := hd
    simp only [List.map_cons, List.nodup_cons] at hnodup
    obtain ⟨hq, hnd⟩ := hnodup
    rcases List.mem_cons.mp hmem with heq | hmem'
    · cases heq
      show getEntry p (processFiles sc sf b tl (analyze_posts sc sf fd init p (some b)).2) = _
      have hstep : (analyze_posts sc sf fd init p (some b)).2 = init := by
        rcases hfd with rfl | rfl <;> rfl
      rw [hstep, getEntry_processFiles_not_mem _ _ _ _ _ _ hq]
    · have hqp : p ≠ q := by
        intro hcontra
        subst hcontra
        exact hq (List.mem_map.mpr ⟨(p, fd), hmem', rfl⟩)
      show getEntry p (processFiles sc sf b tl (analyze_posts sc sf g init q (some b)).2) = _
      rw [ih _ hmem' hnd]
      rcases analyze_posts_snd_or sc sf g init q (some b) with h | ⟨rec, h⟩
      · rw [h]
      · rw [h, getEntry_setEntry_ne _ _ _ _ hqp]

theorem getEntry_processFiles_posts (sf : ℚ → ℚ) (b : ℚ)
    (files : List (String × FileData)) (init : List (String × CorpusRecord))
    (p : String) (l : List Post)
    (hmem : (p, .posts l) ∈ files) (hnodup : (files.map Prod.fst).Nodup) :
    ∃ rec c, getEntry p (processFiles true sf b files init) = some rec ∧
      rec.chi = some c ∧ c.expected_anxiety_ratio = b := by
  induction files generalizing init with
  | nil => cases hmem
  | cons hd tl ih =>
    obtain ⟨q, g⟩ := hd
    simp only [List.map_cons, List.nodup_cons] at hnodup
    obtain ⟨hq, hnd⟩ := hnodup
    rcases List.mem_cons.mp hmem with heq | hmem'
    · cases heq
      obtain ⟨rec, c, hstep, hchi, hr⟩ := analyze_posts_true_posts sf l init p b
      have h2 : (analyze_posts true sf (.posts l) init p (some b)).2 = setEntry p rec init := by
        rw [hstep]
      refine ⟨rec, c, ?_, hchi, hr⟩
      show getEntry p (processFiles true sf b tl (analyze_posts true sf (.posts l) init p (some b)).2) = _
      rw [h2, getEntry_processFiles_not_mem _ _ _ _ _ _ hq, getEntry_setEntry_self]
    · exact ih _ hmem' hnd

theorem processFiles_chi_invariant (sf : ℚ → ℚ) (b : ℚ)
    (files : List (String × FileData)) (init : List (String × CorpusRecord))
    (hinit : ∀ p r, p ≠ "askreddit" → getEntry p init = some r →
        ∃ c, r.chi = some c ∧ c.expected_anxiety_ratio = b) :
    ∀ p r, p ≠ "askreddit" → getEntry p (processFiles true sf b files init) = some r →
      ∃ c, r.chi = some c ∧ c.expected_anxiety_ratio = b := by
  induction files generalizing init with
  | nil => exact hinit
  | cons hd tl ih =>
    obtain ⟨q, g⟩ := hd
    intro p r hp hget
    refine ih _ ?_ p r hp hget
    intro p' r' hp' hget'
    cases g with
    | missing => exact hinit p' r' hp' hget'
    | invalid => exact hinit p' r' hp' hget'
    | posts l =>
      obtain ⟨rec, c, hstep, hchi, hr⟩ := analyze_posts_true_posts sf l init q b
      have hget2 : getEntry p' (analyze_posts true sf (.posts l) init q (some b)).2 = some r' :=
        hget'
      rw [hstep] at hget2
      replace hget' := hget2
      by_cases hpq : p' = q
      · subst hpq
        rw [getEntry_setEntry_self] at hget'
        cases hget'
        exact ⟨c, hchi, hr⟩
      · rw [getEntry_setEntry_ne _ _ _ _ hpq] at hget'
        exact hinit p' r' hp' hget'


theorem chi2stat_1000_eval : chi2stat 20 980 10 990 = 540 / 197 := by
  with_unfolding_all decide

theorem chi2_contingency_1000_eval (sf : ℚ → ℚ) :
    chi2_contingency sf 20 980 10 990 = .ok (.fin (540 / 197), .fin (sf (540 / 197))) := by
  rw [chi2_contingency, if_neg (by norm_num), if_neg (by norm_num)]
  rw [if_neg (by norm_num), chi2stat_1000_eval]

theorem chi_square_test_1000_eval (sf : ℚ → ℚ) :
    chi_square_test true sf 1000 20 (1 / 100) =
      .ok { chi2_statistic := some (.fin (540 / 197))
            chi2_p_value := some (.fin (sf (540 / 197)))
            chi2_significant := some (decide (sf (540 / 197) < 1 / 20))
            expected_anxiety_ratio := 1 / 100
            expected_anxiety_count := some (.fin 10)
            observed_to_expected_ratio := some (.fin 2) } := by
  have h1 : ((1000 : ℕ) : ℚ) * (1 / 100) = 10 := by norm_num
  have h2 : ((1000 : ℕ) : ℚ) * (1 - 1 / 100) = 990 := by norm_num
  have h3 : ((1000 : ℕ) : ℚ) - ((20 : ℕ) : ℚ) = 980 := by norm_num
  have h4 : ((20 : ℕ) : ℚ) = 20 := by norm_num
  simp only [chi_square_test, if_true, h1, h2, h3, h4]
  norm_num
  rw [chi2_contingency_1000_eval]
  simp [PFloat.ltQ]


/-!
The claim theorems.
-/

/-- Claim C8: the tokenizer lower-cases its whole input and emits exactly the
maximal runs of word characters, left to right, discarding everything else:
each token is a nonempty all-word-character string, and concatenating the
tokens recovers precisely the word characters of the lower-cased input in
order; the empty string tokenizes to the empty sequence, and
"A b b! c-c" to ["a","b","b","c","c"]. -/
theorem tokenize_maximal_runs :
    tokenize "" = [] ∧
    tokenize "A b b! c-c" = ["a", "b", "b", "c", "c"] ∧
    (∀ s : String, ((tokenize s).map String.toList).flatten
        = (s.toList.map Char.toLower).filter wordChar) ∧
    (∀ s : String, ∀ t ∈ tokenize s, t.toList ≠ [] ∧ ∀ c ∈ t.toList, wordChar c) := by
  refine ⟨by decide, by decide, ?_, ?_⟩
  · intro s
    have h : (tokenize s).map String.toList = tokenizeChars (s.toList.map Char.toLower) := by
      simp only [tokenize, List.map_map]
      have hid : (String.toList ∘ fun cs : List Char => String.mk cs) = fun cs => cs := by
        funext cs
        rfl
      rw [hid, List.map_id']
    rw [h]
    simpa using tokenizeAux_flatten (s.toList.map Char.toLower) []
  · intro s t ht
    obtain ⟨cs, hcs, rfl⟩ := List.mem_map.mp ht
    have := tokenizeAux_mem (s.toList.map Char.toLower) [] cs (by simp) hcs
    simpa using this

/-- Witness for the tokenizer theorem's conditional part at a concrete
input, discharging the membership hypothesis. -/
theorem tokenize_maximal_runs_witness :
    "ab" ∈ tokenize "ab cd" ∧ "ab".toList ≠ [] ∧ ∀ c ∈ "ab".toList, wordChar c :=
  ⟨by decide, (tokenize_maximal_runs.2.2.2 "ab cd" "ab" (by decide)).1,
    (tokenize_maximal_runs.2.2.2 "ab cd" "ab" (by decide)).2⟩

/-- Claim C1, counterexample: run at totalTokens=1000, markerCount=20,
expectedRatio=0.01 (with the identity standing in for the survival
function, which does not affect the statistic). The deterministic fields are
expected count 10 and observed/expected ratio 2 as claimed, but the
statistic is the Yates-corrected 2x2 contingency value 540/197 (about 2.74),
not the standard goodness-of-fit statistic over [20,980] vs [10,990], which
is 1000/99 (about 10.10): statistic and p-value do not match the claimed
computation. -/
theorem chi_square_test_c1_counterexample :
    chi_square_test true (fun q => q) 1000 20 (1 / 100) =
      .ok { chi2_statistic := some (.fin (540 / 197))
            chi2_p_value := some (.fin (540 / 197))
            chi2_significant := some false
            expected_anxiety_ratio := 1 / 100
            expected_anxiety_count := some (.fin 10)
            observed_to_expected_ratio := some (.fin 2) } ∧
    chi2_gof_spec [20, 980] [10, 990] = 1000 / 99 ∧ (540 / 197 : ℚ) ≠ 1000 / 99 := by
  exact ⟨by with_unfolding_all decide, by with_unfolding_all decide, by with_unfolding_all decide⟩

/-- Claim C1 as amended: for the call with totalTokens=1000, markerCount=20,
expectedRatio=0.01, expected marker count is exactly 10 and
observed-to-expected ratio exactly 2, but the statistic is the
Yates-corrected 2x2 contingency value 540/197 (about 2.741, differing from
the goodness-of-fit statistic 1000/99 of the spec's description), the
p-value is the chi-square(1) survival function at that statistic, and since
540/197 lies below the 5-percent critical value (between 3.8 and 3.85), the
significance flag is false, not true. `sf` ranges over functions with the
two properties of the chi-square(1) survival function used here: strictly
decreasing on nonnegatives, and still at least 0.05 at 3.8. -/
theorem chi_square_test_c1_amended (sf : ℚ → ℚ)
    (hmono : ∀ x y : ℚ, 0 ≤ x → x < y → sf y < sf x)
    (hcrit : 1 / 20 ≤ sf (19 / 5)) :
    chi_square_test true sf 1000 20 (1 / 100) =
      .ok { chi2_statistic := some (.fin (540 / 197))
            chi2_p_value := some (.fin (sf (540 / 197)))
            chi2_significant := some false
            expected_anxiety_ratio := 1 / 100
            expected_anxiety_count := some (.fin 10)
            observed_to_expected_ratio := some (.fin 2) } ∧
    chi2_gof_spec [20, 980] [10, 990] = 1000 / 99 ∧ (540 / 197 : ℚ) ≠ 1000 / 99 := by
  have hlt : sf (19 / 5) < sf (540 / 197) := hmono _ _ (by norm_num) (by norm_num)
  have hp : ¬ ((sf (540 / 197)) < 1 / 20) := by
    intro hc
    linarith
  refine ⟨?_, by with_unfolding_all decide, by with_unfolding_all decide⟩
  rw [chi_square_test_1000_eval sf, decide_eq_false hp]

/-- Witness for the amended C1 theorem at a concrete survival-function
stand-in satisfying its hypotheses. -/
theorem chi_square_test_c1_amended_witness :
    chi_square_test true (fun q => 1 / (1 + q)) 1000 20 (1 / 100) =
      .ok { chi2_statistic := some (.fin (540 / 197))
            chi2_p_value := some (.fin (1 / (1 + 540 / 197)))
            chi2_significant := some false
            expected_anxiety_ratio := 1 / 100
            expected_anxiety_count := some (.fin 10)
            observed_to_expected_ratio := some (.fin 2) } ∧
    chi2_gof_spec [20, 980] [10, 990] = 1000 / 99 ∧ (540 / 197 : ℚ) ≠ 1000 / 99 :=
  chi_square_test_c1_amended (fun q => 1 / (1 + q))
    (fun x y hx hxy => by
      have h1 : (0 : ℚ) < 1 + x := by linarith
      exact one_div_lt_one_div_of_lt h1 (by linarith))
    (by norm_num)

/-- Claim C2 (code-bug evidence): the fixed lexicon actually holds 104
strings, not the 100 announced by the source's own comment and by the spec,
and the lexicon-coverage percentage divides by that actual length 104. -/
theorem anxiety_words_length_and_coverage :
    anxiety_words.length = 104 ∧
    ∀ words, (analyze_anxiety_words words).percentage_of_anxiety_list_found =
      ((analyze_anxiety_words words).unique_anxiety_words : ℚ) / 104 * 100 := by
  refine ⟨by decide, ?_⟩
  intro words
  have hne : anxiety_words ≠ [] := by decide
  have hlen : ((anxiety_words.length : ℕ) : ℚ) = 104 := by
    norm_num [show anxiety_words.length = 104 from by decide]
  simp only [analyze_anxiety_words, if_neg hne, hlen]

/-- Claim C3 (code-bug evidence): with the statistical engine unavailable,
`chi_square_test` does not return the partial result its fallback handler
intends: the handler reads the local `total_words`, which is unbound because
the import (the first statement of the `try` block) failed, so the call
raises UnboundLocalError; `analyze_posts` then catches it in its generic
handler and fails the corpus (returns False). The last conjunct shows the
handler body itself: even with `total_words` bound it would return
`observed_to_expected_ratio` as None rather than populated. -/
theorem chi_square_test_noscipy_crashes (sf : ℚ → ℚ) (t a : ℕ) (r : ℚ) (l : List Post)
    (res : List (String × CorpusRecord)) (p : String) :
    chi_square_test false sf t a r = .error .unboundLocalError ∧
    (analyze_posts false sf (.posts l) res p (some r)).1 = false ∧
    importErrorHandler (some t) r = .ok
      { chi2_statistic := none
        chi2_p_value := none
        chi2_significant := none
        expected_anxiety_ratio := r
        expected_anxiety_count := some (.fin ((t : ℚ) * r))
        observed_to_expected_ratio := none } :=
  ⟨rfl, rfl, rfl⟩

/-- Claim C4 (code-bug evidence): with no askreddit baseline file present,
the default ratio 0.005 is used, yet the analyzed corpus's record is tagged
with baseline source "askreddit" — the truthiness test on line 79 labels any
nonzero ratio as "askreddit", so the "default" label is unreachable in the
default-baseline run. -/
theorem mainResults_default_mislabel :
    ((mainResults true (fun q => q) .missing
        [("cats", .posts [⟨some "hello world", none, none⟩])]).bind (getEntry "cats")).map
      (fun r => r.baseline_source) = some (some "askreddit") := by
  with_unfolding_all decide

/-- Claim C5 (counterexample): at totalTokens=0 the significance test does
not return all numeric fields as None: the expected-ratio field carries the
given ratio, the expected count is 0.0, the observed-to-expected ratio is
+infinity, statistic and p-value are NaN (scipy's margin-expected table is
0/0 with no exception), and the significance flag is False. -/
theorem chi_square_test_zero_counterexample :
    chi_square_test true (fun q => q) 0 0 (1 / 200) =
      .ok { chi2_statistic := some .nan
            chi2_p_value := some .nan
            chi2_significant := some false
            expected_anxiety_ratio := 1 / 200
            expected_anxiety_count := some (.fin 0)
            observed_to_expected_ratio := some .inf } ∧
    some (PFloat.fin 0) ≠ (none : Option PFloat) ∧
    some PFloat.inf ≠ (none : Option PFloat) :=
  ⟨by with_unfolding_all decide, by decide, by decide⟩

/-- Claim C5 as amended: a zero-token corpus has marker percentage and
lexicon coverage both 0 (no division by zero), and the significance test at
totalTokens=0 divides by nothing but is not all-None: statistic and p-value
are NaN, the significance flag is False, the expected ratio holds the given
baseline ratio, the expected count is 0 and the observed-to-expected ratio
is +infinity. -/
theorem zero_token_corpus_amended (sf : ℚ → ℚ) (r : ℚ) :
    (analyze_anxiety_words []).percentage_of_all_words = 0 ∧
    (analyze_anxiety_words []).percentage_of_anxiety_list_found = 0 ∧
    chi_square_test true sf 0 0 r =
      .ok { chi2_statistic := some .nan
            chi2_p_value := some .nan
            chi2_significant := some false
            expected_anxiety_ratio := r
            expected_anxiety_count := some (.fin 0)
            observed_to_expected_ratio := some .inf } := by
  refine ⟨by with_unfolding_all decide, by with_unfolding_all decide, ?_⟩
  simp only [chi_square_test, if_true, Nat.cast_zero, zero_mul, sub_zero]
  rw [show chi2_contingency sf 0 0 0 0 = .ok (.nan, .nan) from by
    rw [chi2_contingency, if_neg (by norm_num), if_pos (by norm_num)]]
  simp [PFloat.ltQ, lt_irrefl]

/-- Claim C9: on the token sequence ["anxiety","anxiety","dog","dog","cat"]
(of which only "anxiety" belongs to the lexicon) the corpus statistics are
total tokens 5, unique 3, marker total 2, unique markers 1, marker
percentage 40, general frequency table [("anxiety",2),("dog",2)] (counts at
least 2, descending, first-seen order for the tie) and marker frequency
table [("anxiety",2)]. -/
theorem corpus_stats_example :
    (buildRecord ["anxiety", "anxiety", "dog", "dog", "cat"]).total_words = 5 ∧
    (buildRecord ["anxiety", "anxiety", "dog", "dog", "cat"]).unique_words = 3 ∧
    (buildRecord ["anxiety", "anxiety", "dog", "dog", "cat"]).anxiety_word_count = 2 ∧
    (buildRecord ["anxiety", "anxiety", "dog", "dog", "cat"]).unique_anxiety_words = 1 ∧
    (buildRecord ["anxiety", "anxiety", "dog", "dog", "cat"]).anxiety_word_percentage = 40 ∧
    (buildRecord ["anxiety", "anxiety", "dog", "dog", "cat"]).word_frequency
      = [("anxiety", 2), ("dog", 2)] ∧
    (buildRecord ["anxiety", "anxiety", "dog", "dog", "cat"]).anxiety_word_frequency
      = [("anxiety", 2)] ∧
    "anxiety" ∈ anxiety_words ∧ "dog" ∉ anxiety_words ∧ "cat" ∉ anxiety_words := by
  with_unfolding_all decide

/-- Claim C10: for dictionary records, absent title/body/comment fields are
read as the empty string: the analysis of any post list succeeds (returns
True), and filling in the missing fields with empty strings changes nothing
about its outcome. -/
theorem analyze_posts_defaults_missing_fields (sf : ℚ → ℚ) (l : List Post)
    (res : List (String × CorpusRecord)) (p : String) (b : Option ℚ) :
    (analyze_posts true sf (.posts l) res p b).1 = true ∧
    analyze_posts true sf (.posts l) res p b =
      analyze_posts true sf (.posts (l.map fillEmptyFields)) res p b := by
  have htext : postsText (l.map fillEmptyFields) = postsText l := by
    simp [postsText, List.foldl_map, fillEmptyFields]
  constructor
  · cases b with
    | none => rfl
    | some r =>
      obtain ⟨rec, c, hstep, _, _⟩ := analyze_posts_true_posts sf l res p r
      rw [hstep]
  · simp only [analyze_posts, htext]

/-- Claim C6: when the designated baseline file is present and readable, the
baseline corpus is analyzed first and recorded under its identifier with no
significance fields and no baseline tag, and every other corpus's record
carries a chi-square result whose expected_anxiety_ratio is exactly the
baseline corpus's marker ratio. -/
theorem mainResults_designated_baseline (sf : ℚ → ℚ) (ps : List Post)
    (others : List (String × FileData)) (res : List (String × CorpusRecord))
    (recA : CorpusRecord)
    (hmain : mainResults true sf (.posts ps) others = some res)
    (hA : getEntry "askreddit" res = some recA) :
    recA.chi = none ∧ recA.baseline_source = none ∧
    ∀ p r, p ≠ "askreddit" → getEntry p res = some r →
      ∃ c, r.chi = some c ∧ c.expected_anxiety_ratio = recA.anxiety_word_ratio := by
  have hnotin : "askreddit" ∉ ((others.filter fun x => x.1 ≠ "askreddit").map Prod.fst) := by
    intro hmem
    obtain ⟨⟨q, fd⟩, hq, hq2⟩ := List.mem_map.mp hmem
    have h2 := (List.mem_filter.mp hq).2
    simp only [decide_eq_true_eq] at h2
    exact h2 hq2
  have hmain2 : some (processFiles true sf
      (buildRecord (tokenize (postsText ps))).anxiety_word_ratio
      (others.filter fun x => x.1 ≠ "askreddit")
      (setEntry "askreddit" (buildRecord (tokenize (postsText ps))) [])) = some res := by
    rw [← hmain]
    show _ = mainResults true sf (.posts ps) others
    simp only [mainResults]
    rw [show (analyze_posts true sf (FileData.posts ps) [] "askreddit" none).2
        = setEntry "askreddit" (buildRecord (tokenize (postsText ps))) [] from rfl]
    rw [getEntry_setEntry_self]
  have hres : res = processFiles true sf
      (buildRecord (tokenize (postsText ps))).anxiety_word_ratio
      (others.filter fun x => x.1 ≠ "askreddit")
      (setEntry "askreddit" (buildRecord (tokenize (postsText ps))) []) :=
    (Option.some.inj hmain2).symm
  have hget : getEntry "askreddit" res = some (buildRecord (tokenize (postsText ps))) := by
    rw [hres, getEntry_processFiles_not_mem _ _ _ _ _ _ hnotin, getEntry_setEntry_self]
  rw [hget] at hA
  have hrecA : recA = buildRecord (tokenize (postsText ps)) := (Option.some.inj hA).symm
  subst hrecA
  refine ⟨rfl, rfl, ?_⟩
  intro p r hp hpr
  refine processFiles_chi_invariant sf _ _ _ ?_ p r hp (by rw [← hres]; exact hpr)
  intro p' r' hp' hget'
  rw [getEntry_setEntry_ne _ _ _ _ hp'] at hget'
  cases hget'

theorem mainResults_designated_baseline_witness :
    rec6.chi = none ∧ rec6.baseline_source = none ∧
    ∀ p r, p ≠ "askreddit" → getEntry p res6 = some r →
      ∃ c, r.chi = some c ∧ c.expected_anxiety_ratio = rec6.anxiety_word_ratio :=
  mainResults_designated_baseline (fun q => q) [] [("cats", .posts [])] res6 rec6
    (by with_unfolding_all decide) (by with_unfolding_all decide)

/-- Claim C7: a missing or malformed corpus file makes `analyze_posts`
return False and leave the results dictionary untouched, and `main`'s batch
continues: in a run over several corpora, failed ones are absent from the
final mapping while every readable corpus still has its entry. -/
theorem analyze_posts_failures_skipped (sf : ℚ → ℚ) (others : List (String × FileData))
    (res : List (String × CorpusRecord))
    (hres : mainResults true sf .missing others = some res)
    (hnodup : (others.map Prod.fst).Nodup) :
    (∀ (sc : Bool) (g : ℚ → ℚ) results q b,
        analyze_posts sc g .missing results q b = (false, results) ∧
        analyze_posts sc g .invalid results q b = (false, results)) ∧
    ∀ p fd, (p, fd) ∈ others → p ≠ "askreddit" →
      ((fd = .missing ∨ fd = .invalid) → getEntry p res = none) ∧
      (∀ l, fd = .posts l → ∃ r, getEntry p res = some r) := by
  refine ⟨fun sc g results q b => ⟨rfl, rfl⟩, ?_⟩
  have hres' : processFiles true sf (5 / 1000)
      (others.filter fun x => x.1 ≠ "askreddit") [] = res := Option.some.inj hres
  have hnd' : ((others.filter fun x => x.1 ≠ "askreddit").map Prod.fst).Nodup :=
    hnodup.sublist ((List.filter_sublist _).map Prod.fst)
  intro p fd hmem hp
  have hmem' : (p, fd) ∈ others.filter fun x => x.1 ≠ "askreddit" :=
    List.mem_filter.mpr ⟨hmem, by simpa using hp⟩
  constructor
  · intro hfd
    rw [← hres', getEntry_processFiles_fail _ _ _ _ _ _ _ hmem' hfd hnd']
    rfl
  · intro l hfd
    subst hfd
    obtain ⟨rec, c, hg, _, _⟩ :=
      getEntry_processFiles_posts sf (5 / 1000) _ [] p l hmem' hnd'
    rw [← hres']
    exact ⟨rec, hg⟩

theorem analyze_posts_failures_skipped_witness :
    (∀ (sc : Bool) (g : ℚ → ℚ) results q b,
        analyze_posts sc g .missing results q b = (false, results) ∧
        analyze_posts sc g .invalid results q b = (false, results)) ∧
    ∀ p fd, (p, fd) ∈ [("a", FileData.missing), ("b", FileData.invalid),
        ("c", FileData.posts [])] → p ≠ "askreddit" →
      ((fd = .missing ∨ fd = .invalid) → getEntry p res7 = none) ∧
      (∀ l, fd = .posts l → ∃ r, getEntry p res7 = some r) :=
  analyze_posts_failures_skipped (fun q => q)
    [("a", .missing), ("b", .invalid), ("c", .posts [])] res7
    (by with_unfolding_all decide) (by decide)
